import Mathlib

/-!
Shallow embedding of `pkg/workflows/steps/amazon/delete_machine.go` from the
`control` repository: the AWS node-deletion workflow step (`DeleteNodeStep`).

The step's dependency on EC2 (the `instanceDeleter` interface) is modelled as a
record of three response functions, one per operation the interface exposes.
`Run` is embedded as a pure function returning the run's outcome, the list of
gateway calls it issued (in order), and the configuration it hands back, so
that call-trace and frame properties can be stated.  The Go `context.Context`
and the `io.Writer` output sink carry no data that the embedded control flow
reads (they are only threaded to the gateway and to log lines), so the
gateway's response functions absorb the context and logging is not modelled.
-/

namespace Control.Amazon

/-- Modelled from the spec: `clouds.TagNodeName`, the well-known node-name tag
key, is declared in `pkg/clouds`, outside the visible source; the step only
uses it to build the lookup filter name, so its concrete value is immaterial. -/
def TagNodeName : String := "Name"

/-- An EC2 instance record as the lookup response carries it.  In the AWS SDK
both `InstanceId` and `SpotInstanceRequestId` are `*string`, hence `Option`
here; `tags` holds the instance's key/value tags. -/
structure Instance where
  instanceId : Option String
  spotInstanceRequestId : Option String
  tags : List (String × String)
deriving DecidableEq, Repr

/-- A reservation groups instances inside a `DescribeInstances` response. -/
structure Reservation where
  instances : List Instance
deriving DecidableEq, Repr

/-- Response of the instance lookup (`ec2.DescribeInstancesOutput`). -/
structure DescribeInstancesOutput where
  reservations : List Reservation
deriving DecidableEq, Repr

/-- A lookup filter (`ec2.Filter`): a filter name and the values matched. -/
structure Filter where
  name : String
  values : List String
deriving DecidableEq, Repr

/-- Request of the instance lookup (`ec2.DescribeInstancesInput`). -/
structure DescribeInstancesInput where
  filters : List Filter
deriving DecidableEq, Repr

/-- Request of the termination call (`ec2.TerminateInstancesInput`). -/
structure TerminateInstancesInput where
  instanceIds : List String
deriving DecidableEq, Repr

/-- Request of the spot-cancellation call
(`ec2.CancelSpotInstanceRequestsInput`). -/
structure CancelSpotInstanceRequestsInput where
  spotInstanceRequestIds : List String
deriving DecidableEq, Repr

/-- The `instanceDeleter` interface: the three EC2 operations the step uses.
Each operation is a fixed response function from requests to either an error
(the Go `error`'s message) or a response; the step ignores the payload of the
terminate and cancel responses, so those are `Unit`. -/
structure Gateway where
  describeInstancesWithContext :
    DescribeInstancesInput → Except String DescribeInstancesOutput
  terminateInstancesWithContext :
    TerminateInstancesInput → Except String Unit
  cancelSpotInstanceRequestsWithContext :
    CancelSpotInstanceRequestsInput → Except String Unit

/-- Modelled from the spec: the node profile inside `steps.Config` (declared
outside the visible source) carries the logical node name the step reads. -/
structure NodeProfile where
  name : String
deriving DecidableEq, Repr

/-- Modelled from the spec: the kube profile inside `steps.Config` carries the
owning cluster's name; the step only reads it for a log line. -/
structure KubeProfile where
  name : String
deriving DecidableEq, Repr

/-- Modelled from the spec: `steps.AWSConfig` (outside the visible source)
carries the provider credentials and region used to construct the gateway. -/
structure AWSConfig where
  credentials : String
  region : String
deriving DecidableEq, Repr

/-- Modelled from the spec: the execution config (`steps.Config`, outside the
visible source) as far as this step reads it: node identity, cluster identity
and the provider configuration. -/
structure Config where
  node : NodeProfile
  kube : KubeProfile
  awsConfig : AWSConfig
deriving DecidableEq, Repr

/-- The step value: its `getSvc` field resolves an `AWSConfig` to a gateway or
fails (the Go `func(steps.AWSConfig) (instanceDeleter, error)`). -/
structure DeleteNodeStep where
  getSvc : AWSConfig → Except String Gateway

/-- `DeleteNodeStepName = "aws_delete_node"`. -/
def DeleteNodeStepName : String := "aws_delete_node"

/-- Error classifications produced by `Run`: `errors.Wrap(ErrAuthorization, m)`
for gateway-construction failure, `errors.Wrap(ErrDeleteNode, m)` for lookup
failure, and `errors.Wrapf(err, "%s terminate instance", DeleteNodeStepName)`
for termination failure, carrying the wrapped cause and the format context. -/
inductive StepError where
  | authorization (msg : String)
  | deleteNode (msg : String)
  | terminate (cause : String) (context : String)
deriving DecidableEq, Repr

/-- Observable outcome of one `Run` invocation.  `nilDereference` is the Go
runtime panic raised when a nil `*string` is dereferenced. -/
inductive RunOutcome where
  | ok
  | err (e : StepError)
  | nilDereference
deriving DecidableEq, Repr

/-- One gateway call as issued by `Run`, with its request. -/
inductive GatewayCall where
  | describe (input : DescribeInstancesInput)
  | terminate (input : TerminateInstancesInput)
  | cancelSpot (input : CancelSpotInstanceRequestsInput)
deriving DecidableEq, Repr

/-- Everything observable about one `Run` invocation: the returned error (or
panic), the gateway calls issued in order, and the config as `Run` leaves it
(the Go code receives `*steps.Config` and never writes through it, so the
embedding threads it through unchanged on every path). -/
structure RunResult where
  outcome : RunOutcome
  calls : List GatewayCall
  finalCfg : Config
deriving DecidableEq, Repr

/-- The lookup request built at lines 61–68: one filter named
`tag:<TagNodeName>` whose sole value is the node's name. -/
def describeInput (nodeName : String) : DescribeInstancesInput :=
  { filters := [{ name := "tag:" ++ TagNodeName, values := [nodeName] }] }

/-- All instances of a lookup response in iteration order: the Go double loop
at lines 78–86 walks reservations outer, instances inner, which is exactly the
flattening of the reservations' instance lists. -/
def flatInstances (out : DescribeInstancesOutput) : List Instance :=
  out.reservations.flatMap Reservation.instances

/-- The collection loop of lines 76–86, over the flattened instance list:
`*instance.InstanceId` is an unchecked dereference (panic, `none`, when the
pointer is nil), while `SpotInstanceRequestId` is nil-checked before its
dereference.  Accumulates both identifier lists in iteration order. -/
def collectLoop :
    List Instance → List String → List String →
      Option (List String × List String)
  | [], instanceIDS, spotRequestIDs => some (instanceIDS, spotRequestIDs)
  | inst :: rest, instanceIDS, spotRequestIDs =>
    match inst.instanceId with
    | none => none
    | some id =>
      collectLoop rest (instanceIDS ++ [id])
        (match inst.spotInstanceRequestId with
         | some sid => spotRequestIDs ++ [sid]
         | none => spotRequestIDs)

/-- `DeleteNodeStep.Run` (lines 49–117), with log statements elided: resolve
the gateway (authorization error on failure), look the node's instances up by
tag (delete-node error on failure), collect instance and spot-request ids,
return nil when no instance matched, terminate (fatal, wrapped error on
failure), then cancel spot requests (failure logged only), and return nil. -/
def DeleteNodeStep.Run (s : DeleteNodeStep) (cfg : Config) : RunResult :=
  match s.getSvc cfg.awsConfig with
  | .error e => ⟨.err (.authorization e), [], cfg⟩
  | .ok svc =>
    let input := describeInput cfg.node.name
    match svc.describeInstancesWithContext input with
    | .error e => ⟨.err (.deleteNode e), [.describe input], cfg⟩
    | .ok describeInstanceOutput =>
      match collectLoop (flatInstances describeInstanceOutput) [] [] with
      | none => ⟨.nilDereference, [.describe input], cfg⟩
      | some (instanceIDS, spotRequestIDs) =>
        if instanceIDS.length = 0 then
          ⟨.ok, [.describe input], cfg⟩
        else
          let tIn : TerminateInstancesInput := ⟨instanceIDS⟩
          match svc.terminateInstancesWithContext tIn with
          | .error e =>
            ⟨.err (.terminate e (DeleteNodeStepName ++ " terminate instance")),
             [.describe input, .terminate tIn], cfg⟩
          | .ok _ =>
            let cIn : CancelSpotInstanceRequestsInput := ⟨spotRequestIDs⟩
            match svc.cancelSpotInstanceRequestsWithContext cIn with
            | .error _ =>
              ⟨.ok, [.describe input, .terminate tIn, .cancelSpot cIn], cfg⟩
            | .ok _ =>
              ⟨.ok, [.describe input, .terminate tIn, .cancelSpot cIn], cfg⟩

/-- `Name` (lines 119–121). -/
def DeleteNodeStep.Name (_ : DeleteNodeStep) : String := DeleteNodeStepName

/-- `Depends` (lines 123–125): returns nil, the empty dependency list. -/
def DeleteNodeStep.Depends (_ : DeleteNodeStep) : List String := []

/-- `Description` (lines 127–129). -/
def DeleteNodeStep.Description (_ : DeleteNodeStep) : String :=
  "Deletes node in aws cluster"

/-- `Rollback` (lines 131–133): ignores all arguments and returns nil, issuing
no gateway call and leaving the config untouched. -/
def DeleteNodeStep.Rollback (_ : DeleteNodeStep) (cfg : Config) : RunResult :=
  ⟨.ok, [], cfg⟩

/-- Does an instance carry the node-name tag with the given value?  The lookup
request asks the provider for exactly the instances satisfying this. -/
def hasNodeNameTag (nodeName : String) (inst : Instance) : Bool :=
  inst.tags.contains (TagNodeName, nodeName)

/-- The instances of a lookup response that match the node name by tag. -/
def matchingInstances (out : DescribeInstancesOutput) (nodeName : String) :
    List Instance :=
  (flatInstances out).filter (hasNodeNameTag nodeName)

/-- The provider honours the request's tag filter: every instance it returns
carries the node-name tag with the requested value. -/
def HonorsFilter (out : DescribeInstancesOutput) (nodeName : String) : Prop :=
  ∀ inst ∈ flatInstances out, hasNodeNameTag nodeName inst

/-- Is this call a termination call? -/
def GatewayCall.isTerminate : GatewayCall → Bool
  | .terminate _ => true
  | _ => false

/-- Is this call a spot-cancellation call? -/
def GatewayCall.isCancelSpot : GatewayCall → Bool
  | .cancelSpot _ => true
  | _ => false

/-! Concrete fixtures used to instantiate the theorems: a matched instance
carrying a spot request, and steps whose gateways succeed or fail at each of
the three operations. -/

/-- A well-formed matched instance: id `i-1`, spot request `sir-1`. -/
def sampleInstance : Instance :=
  ⟨some "i-1", some "sir-1", [(TagNodeName, "worker-3")]⟩

/-- A lookup response holding exactly `sampleInstance`. -/
def sampleOut : DescribeInstancesOutput := ⟨[⟨[sampleInstance]⟩]⟩

/-- A gateway on which every operation succeeds. -/
def sampleGw : Gateway :=
  ⟨fun _ => .ok sampleOut, fun _ => .ok (), fun _ => .ok ()⟩

/-- A step resolving to `sampleGw`. -/
def sampleStep : DeleteNodeStep := ⟨fun _ => .ok sampleGw⟩

/-- A second step whose gateway is written differently but answers every
request exactly as `sampleGw` does. -/
def sampleGwB : Gateway :=
  ⟨fun _ => .ok ⟨[⟨[sampleInstance]⟩]⟩, fun _ => .ok (), fun _ => .ok ()⟩

/-- A step resolving to `sampleGwB`. -/
def sampleStepB : DeleteNodeStep := ⟨fun _ => .ok sampleGwB⟩

/-- A config naming node `worker-3` in cluster `kube-1`. -/
def sampleCfg : Config := ⟨⟨"worker-3"⟩, ⟨"kube-1"⟩, ⟨"creds", "us-east-1"⟩⟩

/-- A gateway whose lookup finds no instance. -/
def emptyGw : Gateway :=
  ⟨fun _ => .ok ⟨[]⟩, fun _ => .ok (), fun _ => .ok ()⟩

/-- A step resolving to `emptyGw`. -/
def emptyStep : DeleteNodeStep := ⟨fun _ => .ok emptyGw⟩

/-- A gateway whose spot-cancellation call fails. -/
def cancelFailGw : Gateway :=
  ⟨fun _ => .ok sampleOut, fun _ => .ok (), fun _ => .error "spot cancel down"⟩

/-- A step resolving to `cancelFailGw`. -/
def cancelFailStep : DeleteNodeStep := ⟨fun _ => .ok cancelFailGw⟩

/-- A gateway whose termination call fails transiently. -/
def termFailGw : Gateway :=
  ⟨fun _ => .ok sampleOut, fun _ => .error "throttled", fun _ => .ok ()⟩

/-- A step resolving to `termFailGw`. -/
def termFailStep : DeleteNodeStep := ⟨fun _ => .ok termFailGw⟩

/-- A step whose gateway construction fails. -/
def authFailStep : DeleteNodeStep := ⟨fun _ => .error "credentials rejected"⟩

/-- A gateway whose lookup fails. -/
def lookupFailGw : Gateway :=
  ⟨fun _ => .error "api down", fun _ => .ok (), fun _ => .ok ()⟩

/-- A step resolving to `lookupFailGw`. -/
def lookupFailStep : DeleteNodeStep := ⟨fun _ => .ok lookupFailGw⟩

/-- A matched instance record lacking an instance identifier (nil
`*InstanceId` in the SDK response). -/
def nilIdInstance : Instance := ⟨none, none, [(TagNodeName, "worker-3")]⟩

/-- A gateway whose lookup returns `nilIdInstance`. -/
def nilIdGw : Gateway :=
  ⟨fun _ => .ok ⟨[⟨[nilIdInstance]⟩]⟩, fun _ => .ok (), fun _ => .ok ()⟩

/-- A step resolving to `nilIdGw`. -/
def nilIdStep : DeleteNodeStep := ⟨fun _ => .ok nilIdGw⟩

/-! Helper lemmas about the collection loop and the tag filter. -/

/-- When every instance in the list carries an identifier, the collection loop
does not panic and accumulates both identifier lists in order. -/
theorem collectLoop_eq_of_isSome (l : List Instance) :
    ∀ instanceIDS spotRequestIDs,
      (∀ inst ∈ l, (Instance.instanceId inst).isSome = true) →
      collectLoop l instanceIDS spotRequestIDs =
        some (instanceIDS ++ l.filterMap Instance.instanceId,
          spotRequestIDs ++ l.filterMap Instance.spotInstanceRequestId) := by
  induction l with
  | nil => intro ids sids _; simp [collectLoop]
  | cons inst rest ih =>
    intro ids sids h
    obtain ⟨id, hid⟩ := Option.isSome_iff_exists.mp (h inst (by simp))
    have hrest : ∀ i ∈ rest, (Instance.instanceId i).isSome = true :=
      fun i hi => h i (List.mem_cons_of_mem _ hi)
    cases hs : inst.spotInstanceRequestId with
    | none => simp [collectLoop, hid, hs, ih _ _ hrest]
    | some sid => simp [collectLoop, hid, hs, ih _ _ hrest]

/-- Under an honest gateway, the response's instances are exactly the matching
ones. -/
theorem matching_eq_flat_of_honors (out : DescribeInstancesOutput)
    (nodeName : String) (h : HonorsFilter out nodeName) :
    matchingInstances out nodeName = flatInstances out :=
  List.filter_eq_self.mpr h

/-- C1: for every execution config and every gateway whose instance lookup
succeeds and returns zero instances whose node-name tag equals the config's
node name, `Run` returns no error and issues no termination call and no
spot-cancellation call. -/
theorem run_zero_matching_succeeds_no_calls (s : DeleteNodeStep) (cfg : Config)
    (gw : Gateway) (out : DescribeInstancesOutput)
    (hsvc : s.getSvc cfg.awsConfig = .ok gw)
    (hdesc : gw.describeInstancesWithContext (describeInput cfg.node.name)
      = .ok out)
    (hhon : HonorsFilter out cfg.node.name)
    (hzero : matchingInstances out cfg.node.name = []) :
    (s.Run cfg).outcome = .ok ∧
      (∀ t, GatewayCall.terminate t ∉ (s.Run cfg).calls) ∧
      (∀ c, GatewayCall.cancelSpot c ∉ (s.Run cfg).calls) := by
  have hflat : flatInstances out = [] := by
    rw [← matching_eq_flat_of_honors out cfg.node.name hhon]; exact hzero
  refine ⟨?_, ?_, ?_⟩ <;>
    simp [DeleteNodeStep.Run, hsvc, hdesc, hflat, collectLoop]

/-- C1 witness: node `worker-9` has no matching instance on `emptyGw`; the run
succeeds and issues neither mutating call. -/
theorem run_zero_matching_succeeds_no_calls_witness :
    (emptyStep.Run ⟨⟨"worker-9"⟩, ⟨"kube-1"⟩, ⟨"creds", "us-east-1"⟩⟩).outcome
        = .ok ∧
      (∀ t, GatewayCall.terminate t ∉
        (emptyStep.Run ⟨⟨"worker-9"⟩, ⟨"kube-1"⟩, ⟨"creds", "us-east-1"⟩⟩).calls) ∧
      (∀ c, GatewayCall.cancelSpot c ∉
        (emptyStep.Run ⟨⟨"worker-9"⟩, ⟨"kube-1"⟩, ⟨"creds", "us-east-1"⟩⟩).calls) :=
  run_zero_matching_succeeds_no_calls emptyStep _ emptyGw ⟨[]⟩ rfl rfl
    (by intro inst h; simp [flatInstances] at h)
    (by simp [matchingInstances, flatInstances])

/-- C6: for every context, output sink and execution config, regardless of any
prior `Run` outcome, `Rollback` returns no error and performs no side effects
(no gateway call, config untouched). -/
theorem rollback_always_succeeds (s : DeleteNodeStep) (cfg : Config) :
    s.Rollback cfg = ⟨.ok, [], cfg⟩ := rfl

/-- C9: on every success and failure path, `Run` leaves the execution config
it was handed unchanged: the step only reads it. -/
theorem run_preserves_config (s : DeleteNodeStep) (cfg : Config) :
    (s.Run cfg).finalCfg = cfg := by
  cases hs : s.getSvc cfg.awsConfig with
  | error e => simp [DeleteNodeStep.Run, hs]
  | ok gw =>
    cases hd : gw.describeInstancesWithContext (describeInput cfg.node.name) with
    | error e => simp [DeleteNodeStep.Run, hs, hd]
    | ok out =>
      cases hc : collectLoop (flatInstances out) [] [] with
      | none => simp [DeleteNodeStep.Run, hs, hd, hc]
      | some p =>
        obtain ⟨ids, sids⟩ := p
        by_cases h : ids.length = 0
        · simp [DeleteNodeStep.Run, hs, hd, hc, h]
        · cases ht : gw.terminateInstancesWithContext ⟨ids⟩ with
          | error e => simp [DeleteNodeStep.Run, hs, hd, hc, h, ht]
          | ok u =>
            cases hca : gw.cancelSpotInstanceRequestsWithContext ⟨sids⟩ <;>
              simp [DeleteNodeStep.Run, hs, hd, hc, h, ht, hca]

/-- Shape of a run in which the lookup succeeded, the gateway honoured the
filter, at least one instance matched and every matched record carries an
identifier: the describe call is followed by exactly one terminate call over
the matched ids; on terminate success exactly one cancel call over the matched
spot ids follows and the run succeeds whatever the cancel result is. -/
theorem run_eq_of_matched (s : DeleteNodeStep) (cfg : Config) (gw : Gateway)
    (out : DescribeInstancesOutput)
    (hsvc : s.getSvc cfg.awsConfig = .ok gw)
    (hdesc : gw.describeInstancesWithContext (describeInput cfg.node.name)
      = .ok out)
    (hhon : HonorsFilter out cfg.node.name)
    (hne : matchingInstances out cfg.node.name ≠ [])
    (hids : ∀ inst ∈ matchingInstances out cfg.node.name,
      (Instance.instanceId inst).isSome = true) :
    s.Run cfg =
      (let input := describeInput cfg.node.name
       let ids := (matchingInstances out cfg.node.name).filterMap
         Instance.instanceId
       let sids := (matchingInstances out cfg.node.name).filterMap
         Instance.spotInstanceRequestId
       match gw.terminateInstancesWithContext ⟨ids⟩ with
       | .error e =>
         ⟨.err (.terminate e (DeleteNodeStepName ++ " terminate instance")),
          [.describe input, .terminate ⟨ids⟩], cfg⟩
       | .ok _ =>
         ⟨.ok, [.describe input, .terminate ⟨ids⟩, .cancelSpot ⟨sids⟩], cfg⟩) := by
  have hflat := matching_eq_flat_of_honors out cfg.node.name hhon
  have hids' : ∀ inst ∈ flatInstances out,
      (Instance.instanceId inst).isSome = true := by
    rw [← hflat]; exact hids
  have hcol : collectLoop (flatInstances out) [] [] =
      some ((matchingInstances out cfg.node.name).filterMap Instance.instanceId,
        (matchingInstances out cfg.node.name).filterMap
          Instance.spotInstanceRequestId) := by
    rw [collectLoop_eq_of_isSome (flatInstances out) [] [] hids', ← hflat]
    simp
  have hlen : ¬ ((matchingInstances out cfg.node.name).filterMap
      Instance.instanceId).length = 0 := by
    cases hm : matchingInstances out cfg.node.name with
    | nil => exact absurd hm hne
    | cons a r =>
      obtain ⟨id, hid⟩ := Option.isSome_iff_exists.mp
        (hids a (by rw [hm]; exact List.mem_cons_self a r))
      simp [List.filterMap_cons, hid]
  cases ht : gw.terminateInstancesWithContext
      ⟨(matchingInstances out cfg.node.name).filterMap Instance.instanceId⟩ with
  | error e => simp [DeleteNodeStep.Run, hsvc, hdesc, hcol, hlen, ht]
  | ok u =>
    cases hca : gw.cancelSpotInstanceRequestsWithContext
        ⟨(matchingInstances out cfg.node.name).filterMap
          Instance.spotInstanceRequestId⟩ <;>
      simp [DeleteNodeStep.Run, hsvc, hdesc, hcol, hlen, ht, hca]

/-- C2: for every execution config and gateway whose lookup succeeds with
N ≥ 1 matching instances, `Run` issues exactly one termination request, and
the identifiers in that request are exactly the identifiers of those N
instances (as a set). -/
theorem run_single_terminate_exact_ids (s : DeleteNodeStep) (cfg : Config)
    (gw : Gateway) (out : DescribeInstancesOutput)
    (hsvc : s.getSvc cfg.awsConfig = .ok gw)
    (hdesc : gw.describeInstancesWithContext (describeInput cfg.node.name)
      = .ok out)
    (hhon : HonorsFilter out cfg.node.name)
    (hne : matchingInstances out cfg.node.name ≠ [])
    (hids : ∀ inst ∈ matchingInstances out cfg.node.name,
      (Instance.instanceId inst).isSome = true) :
    ∃ tIn : TerminateInstancesInput,
      (s.Run cfg).calls.filter GatewayCall.isTerminate = [.terminate tIn] ∧
      ∀ x, x ∈ tIn.instanceIds ↔
        ∃ inst ∈ matchingInstances out cfg.node.name,
          Instance.instanceId inst = some x := by
  rw [run_eq_of_matched s cfg gw out hsvc hdesc hhon hne hids]
  refine ⟨⟨(matchingInstances out cfg.node.name).filterMap
    Instance.instanceId⟩, ?_, ?_⟩
  · cases ht : gw.terminateInstancesWithContext
        ⟨(matchingInstances out cfg.node.name).filterMap
          Instance.instanceId⟩ <;>
      simp [ht, List.filter, GatewayCall.isTerminate, GatewayCall.isCancelSpot]
  · intro x
    simp [List.mem_filterMap]

/-- C3: whenever the termination request succeeds, `Run` returns no error
whatever the subsequent spot-cancellation request does. -/
theorem run_ok_regardless_of_cancel (s : DeleteNodeStep) (cfg : Config)
    (gw : Gateway) (out : DescribeInstancesOutput)
    (hsvc : s.getSvc cfg.awsConfig = .ok gw)
    (hdesc : gw.describeInstancesWithContext (describeInput cfg.node.name)
      = .ok out)
    (hhon : HonorsFilter out cfg.node.name)
    (hne : matchingInstances out cfg.node.name ≠ [])
    (hids : ∀ inst ∈ matchingInstances out cfg.node.name,
      (Instance.instanceId inst).isSome = true)
    (hterm : gw.terminateInstancesWithContext
      ⟨(matchingInstances out cfg.node.name).filterMap Instance.instanceId⟩
      = .ok ()) :
    (s.Run cfg).outcome = .ok := by
  rw [run_eq_of_matched s cfg gw out hsvc hdesc hhon hne hids]
  simp [hterm]

/-- C4: when at least one instance matched and the termination request fails,
`Run` returns the termination-classified error wrapped with the step's name,
and no spot-cancellation call is ever attempted. -/
theorem run_terminate_failure_aborts (s : DeleteNodeStep) (cfg : Config)
    (gw : Gateway) (out : DescribeInstancesOutput) (e : String)
    (hsvc : s.getSvc cfg.awsConfig = .ok gw)
    (hdesc : gw.describeInstancesWithContext (describeInput cfg.node.name)
      = .ok out)
    (hhon : HonorsFilter out cfg.node.name)
    (hne : matchingInstances out cfg.node.name ≠ [])
    (hids : ∀ inst ∈ matchingInstances out cfg.node.name,
      (Instance.instanceId inst).isSome = true)
    (hterm : gw.terminateInstancesWithContext
      ⟨(matchingInstances out cfg.node.name).filterMap Instance.instanceId⟩
      = .error e) :
    (s.Run cfg).outcome
        = .err (.terminate e (DeleteNodeStepName ++ " terminate instance")) ∧
      ∀ c, GatewayCall.cancelSpot c ∉ (s.Run cfg).calls := by
  rw [run_eq_of_matched s cfg gw out hsvc hdesc hhon hne hids]
  refine ⟨?_, ?_⟩ <;> simp [hterm]

/-- C7: whenever the termination request succeeds, `Run` issues exactly one
spot-cancellation request, whose identifiers are exactly the spot-request
identifiers of the matched instances that carry one; instances without one
contribute nothing, and the request is issued even when that set is empty. -/
theorem run_single_cancel_exact_spot_ids (s : DeleteNodeStep) (cfg : Config)
    (gw : Gateway) (out : DescribeInstancesOutput)
    (hsvc : s.getSvc cfg.awsConfig = .ok gw)
    (hdesc : gw.describeInstancesWithContext (describeInput cfg.node.name)
      = .ok out)
    (hhon : HonorsFilter out cfg.node.name)
    (hne : matchingInstances out cfg.node.name ≠ [])
    (hids : ∀ inst ∈ matchingInstances out cfg.node.name,
      (Instance.instanceId inst).isSome = true)
    (hterm : gw.terminateInstancesWithContext
      ⟨(matchingInstances out cfg.node.name).filterMap Instance.instanceId⟩
      = .ok ()) :
    ∃ cIn : CancelSpotInstanceRequestsInput,
      (s.Run cfg).calls.filter GatewayCall.isCancelSpot = [.cancelSpot cIn] ∧
      ∀ x, x ∈ cIn.spotInstanceRequestIds ↔
        ∃ inst ∈ matchingInstances out cfg.node.name,
          Instance.spotInstanceRequestId inst = some x := by
  rw [run_eq_of_matched s cfg gw out hsvc hdesc hhon hne hids]
  refine ⟨⟨(matchingInstances out cfg.node.name).filterMap
    Instance.spotInstanceRequestId⟩, ?_, ?_⟩
  · simp [hterm, List.filter, GatewayCall.isTerminate, GatewayCall.isCancelSpot]
  · intro x
    simp [List.mem_filterMap]

/-- C5: gateway-construction failure yields the authorization classification
with no call issued at all; lookup failure yields the delete-node
classification with no mutating call issued; the two classifications are
distinct. -/
theorem run_failure_classification (s₁ s₂ : DeleteNodeStep)
    (cfg₁ cfg₂ : Config) (e₁ e₂ : String) (gw : Gateway)
    (h₁ : s₁.getSvc cfg₁.awsConfig = .error e₁)
    (h₂ : s₂.getSvc cfg₂.awsConfig = .ok gw)
    (h₃ : gw.describeInstancesWithContext (describeInput cfg₂.node.name)
      = .error e₂) :
    (s₁.Run cfg₁).outcome = .err (.authorization e₁) ∧
      (s₁.Run cfg₁).calls = [] ∧
      (s₂.Run cfg₂).outcome = .err (.deleteNode e₂) ∧
      (∀ t, GatewayCall.terminate t ∉ (s₂.Run cfg₂).calls) ∧
      (∀ c, GatewayCall.cancelSpot c ∉ (s₂.Run cfg₂).calls) ∧
      (∀ a b, StepError.authorization a ≠ StepError.deleteNode b) := by
  refine ⟨?_, ?_, ?_, ?_, ?_, ?_⟩ <;>
    simp [DeleteNodeStep.Run, h₁, h₂, h₃]

/-- C8 counterexample: a lookup response whose single matched record lacks an
instance identifier makes `Run` hit the unchecked `*instance.InstanceId`
dereference and panic instead of returning an error value. -/
theorem run_panics_on_missing_instance_id :
    (nilIdStep.Run sampleCfg).outcome = .nilDereference := rfl

/-- C8 amended: provided every instance record of a successful lookup response
carries an instance identifier, `Run` never panics: every path returns a value
to the caller. -/
theorem run_no_panic_when_ids_present (s : DeleteNodeStep) (cfg : Config)
    (h : ∀ gw out, s.getSvc cfg.awsConfig = .ok gw →
      gw.describeInstancesWithContext (describeInput cfg.node.name) = .ok out →
      ∀ inst ∈ flatInstances out, (Instance.instanceId inst).isSome = true) :
    (s.Run cfg).outcome ≠ .nilDereference := by
  cases hs : s.getSvc cfg.awsConfig with
  | error e => simp [DeleteNodeStep.Run, hs]
  | ok gw =>
    cases hd : gw.describeInstancesWithContext (describeInput cfg.node.name) with
    | error e => simp [DeleteNodeStep.Run, hs, hd]
    | ok out =>
      have hcol := collectLoop_eq_of_isSome (flatInstances out) [] []
        (h gw out hs hd)
      simp only [List.nil_append] at hcol
      by_cases hlen :
          ((flatInstances out).filterMap Instance.instanceId).length = 0
      · simp [DeleteNodeStep.Run, hs, hd, hcol, hlen]
      · cases ht : gw.terminateInstancesWithContext
            ⟨(flatInstances out).filterMap Instance.instanceId⟩ with
        | error e => simp [DeleteNodeStep.Run, hs, hd, hcol, hlen, ht]
        | ok u =>
          cases hca : gw.cancelSpotInstanceRequestsWithContext
              ⟨(flatInstances out).filterMap Instance.spotInstanceRequestId⟩ <;>
            simp [DeleteNodeStep.Run, hs, hd, hcol, hlen, ht, hca]

/-- Observational agreement of two gateway-resolution results: both fail with
the same error, or both succeed with gateways answering every request alike —
the sense in which a gateway's responses are a fixed function of the requests
it receives. -/
def GatewayAgrees : Except String Gateway → Except String Gateway → Prop
  | .error e₁, .error e₂ => e₁ = e₂
  | .ok g₁, .ok g₂ =>
    (∀ i, g₁.describeInstancesWithContext i = g₂.describeInstancesWithContext i)
      ∧ (∀ i, g₁.terminateInstancesWithContext i
          = g₂.terminateInstancesWithContext i)
      ∧ (∀ i, g₁.cancelSpotInstanceRequestsWithContext i
          = g₂.cancelSpotInstanceRequestsWithContext i)
  | _, _ => False

/-- C10: `Run` is deterministic in its inputs: with the same config and
gateways whose responses agree as functions of the requests received, two
invocations issue the same call sequence and return the same outcome. -/
theorem run_deterministic (s₁ s₂ : DeleteNodeStep) (cfg : Config)
    (h : GatewayAgrees (s₁.getSvc cfg.awsConfig) (s₂.getSvc cfg.awsConfig)) :
    s₁.Run cfg = s₂.Run cfg := by
  cases h₁ : s₁.getSvc cfg.awsConfig with
  | error e₁ =>
    cases h₂ : s₂.getSvc cfg.awsConfig with
    | error e₂ =>
      rw [h₁, h₂] at h
      simp only [GatewayAgrees] at h
      simp [DeleteNodeStep.Run, h₁, h₂, h]
    | ok g₂ =>
      rw [h₁, h₂] at h
      simp only [GatewayAgrees] at h
  | ok g₁ =>
    cases h₂ : s₂.getSvc cfg.awsConfig with
    | error e₂ =>
      rw [h₁, h₂] at h
      simp only [GatewayAgrees] at h
    | ok g₂ =>
      rw [h₁, h₂] at h
      simp only [GatewayAgrees] at h
      obtain ⟨hd, ht, hc⟩ := h
      cases hdes : g₂.describeInstancesWithContext (describeInput cfg.node.name) with
      | error e => simp [DeleteNodeStep.Run, h₁, h₂, hd, hdes]
      | ok out =>
        cases hcol : collectLoop (flatInstances out) [] [] with
        | none => simp [DeleteNodeStep.Run, h₁, h₂, hd, hdes, hcol]
        | some p =>
          obtain ⟨ids, sids⟩ := p
          by_cases hlen : ids.length = 0
          · simp [DeleteNodeStep.Run, h₁, h₂, hd, hdes, hcol, hlen]
          · cases hterm : g₂.terminateInstancesWithContext ⟨ids⟩ with
            | error e =>
              simp [DeleteNodeStep.Run, h₁, h₂, hd, ht, hdes, hcol, hlen, hterm]
            | ok u =>
              cases hca : g₂.cancelSpotInstanceRequestsWithContext ⟨sids⟩ <;>
                simp [DeleteNodeStep.Run, h₁, h₂, hd, ht, hc, hdes, hcol,
                  hlen, hterm, hca]

/-- C2 witness: on `sampleGw`, node `worker-3` matches `sampleInstance`; the
run's sole terminate request holds exactly its identifier. -/
theorem run_single_terminate_exact_ids_witness :
    ∃ tIn : TerminateInstancesInput,
      (sampleStep.Run sampleCfg).calls.filter GatewayCall.isTerminate
          = [.terminate tIn] ∧
      ∀ x, x ∈ tIn.instanceIds ↔
        ∃ inst ∈ matchingInstances sampleOut "worker-3",
          Instance.instanceId inst = some x :=
  run_single_terminate_exact_ids sampleStep sampleCfg sampleGw sampleOut
    rfl rfl (by unfold HonorsFilter; decide) (by decide) (by decide)

/-- C3 witness: on `cancelFailGw` the spot cancellation fails, yet the run
still returns no error because termination succeeded. -/
theorem run_ok_regardless_of_cancel_witness :
    (cancelFailStep.Run sampleCfg).outcome = .ok :=
  run_ok_regardless_of_cancel cancelFailStep sampleCfg cancelFailGw sampleOut
    rfl rfl (by unfold HonorsFilter; decide) (by decide) (by decide) rfl

/-- C4 witness: on `termFailGw` the termination call fails with `throttled`;
the run returns the wrapped termination error and never attempts the
cancellation. -/
theorem run_terminate_failure_aborts_witness :
    (termFailStep.Run sampleCfg).outcome
        = .err (.terminate "throttled"
            (DeleteNodeStepName ++ " terminate instance")) ∧
      ∀ c, GatewayCall.cancelSpot c ∉ (termFailStep.Run sampleCfg).calls :=
  run_terminate_failure_aborts termFailStep sampleCfg termFailGw sampleOut
    "throttled" rfl rfl (by unfold HonorsFilter; decide) (by decide) (by decide)
    rfl

/-- C5 witness: `authFailStep` fails gateway construction and
`lookupFailStep` fails the lookup; the classifications and call traces are as
claimed. -/
theorem run_failure_classification_witness :
    (authFailStep.Run sampleCfg).outcome
        = .err (.authorization "credentials rejected") ∧
      (authFailStep.Run sampleCfg).calls = [] ∧
      (lookupFailStep.Run sampleCfg).outcome = .err (.deleteNode "api down") ∧
      (∀ t, GatewayCall.terminate t ∉ (lookupFailStep.Run sampleCfg).calls) ∧
      (∀ c, GatewayCall.cancelSpot c ∉ (lookupFailStep.Run sampleCfg).calls) ∧
      (∀ a b, StepError.authorization a ≠ StepError.deleteNode b) :=
  run_failure_classification authFailStep lookupFailStep sampleCfg sampleCfg
    "credentials rejected" "api down" lookupFailGw rfl rfl rfl

/-- C7 witness: on `sampleGw` the run's sole cancellation request holds
exactly `sampleInstance`'s spot-request identifier. -/
theorem run_single_cancel_exact_spot_ids_witness :
    ∃ cIn : CancelSpotInstanceRequestsInput,
      (sampleStep.Run sampleCfg).calls.filter GatewayCall.isCancelSpot
          = [.cancelSpot cIn] ∧
      ∀ x, x ∈ cIn.spotInstanceRequestIds ↔
        ∃ inst ∈ matchingInstances sampleOut "worker-3",
          Instance.spotInstanceRequestId inst = some x :=
  run_single_cancel_exact_spot_ids sampleStep sampleCfg sampleGw sampleOut
    rfl rfl (by unfold HonorsFilter; decide) (by decide) (by decide) rfl

/-- C8 witness: on `sampleGw`, whose sole record carries identifier `i-1`,
the run does not panic. -/
theorem run_no_panic_when_ids_present_witness :
    (sampleStep.Run sampleCfg).outcome ≠ .nilDereference :=
  run_no_panic_when_ids_present sampleStep sampleCfg
    (by
      intro gw out hgw hout
      simp only [sampleStep] at hgw
      cases hgw
      simp only [sampleGw] at hout
      cases hout
      decide)

/-- C10 witness: `sampleStep` and `sampleStepB` resolve to gateways written
differently but answering every request alike; their runs coincide. -/
theorem run_deterministic_witness :
    sampleStep.Run sampleCfg = sampleStepB.Run sampleCfg :=
  run_deterministic sampleStep sampleStepB sampleCfg
    (by
      simp [sampleStep, sampleStepB, GatewayAgrees, sampleGw, sampleGwB,
        sampleOut])

end Control.Amazon
